import Mathlib

set_option linter.unusedVariables false

/-!
Verification of the KropKart marketplace application (`app.py`).

The application is a Flask web app over MongoDB.  We shallowly embed the
pieces the properties below are about:

* the pure pricing/quality heuristics `analyze_quality`, `get_quality_label`
  and `compute_adjusted_price` (Python floats are modelled by exact rationals
  `ℚ`; Python's `round(x, 2)` is modelled by round-half-to-even on the exact
  rational value, the rounding rule Python's `round` implements; Python's
  `str.lower()` is modelled by per-character ASCII lowering — all trigger
  keywords are ASCII);
* the database state (collections `users`, `products`, `orders` as Lean
  lists) and the state-mutating request handlers `register`, `add_product`,
  `delete_product`, `verify_payment` and `refund_order`.  External effects
  (Razorpay signature check, Razorpay fetch/refund calls, the Shiprocket
  call, fresh ObjectIds, Python's `random`, the password hash) are passed in
  as explicit oracle arguments; the database connection is modelled as
  available (`ensure_db_connection` succeeding — every handler only reaches
  its interesting logic in that case).  Timestamp fields (`created_at`,
  `date`, `refunded_at`) are not modelled: no verified property mentions
  them.
-/

namespace KropKart

/-! ## Python `round(x, 2)` on exact rationals: round half to even -/

/-- Round a rational to the nearest integer, ties to even (Python's
`round` rule applied to the exact value). -/
def roundHalfEven (x : ℚ) : ℤ :=
  let f := ⌊x⌋
  if x - f < 1/2 then f
  else if 1/2 < x - f then f + 1
  else if f % 2 = 0 then f else f + 1

/-- Python's `round(x, 2)`: round to two decimal places, ties to even. -/
def round2 (x : ℚ) : ℚ :=
  (roundHalfEven (x * 100) : ℚ) / 100

/-! ## Python string helpers on character lists -/

/-- `containsSub hay needle` holds when `needle` occurs contiguously in
`hay` (Python's `needle in hay`). -/
def containsSub (hay needle : List Char) : Bool :=
  needle.isPrefixOf hay ||
    match hay with
    | [] => false
    | _ :: rest => containsSub rest needle

/-- Python's `needle in hay` membership test for strings, where the
haystack is an already-lowered character list. -/
def strIn (needle : String) (hay : List Char) : Bool :=
  containsSub hay needle.data

/-- Python's `s.lower()` as a character list (ASCII lowering). -/
def pyLower (s : String) : List Char :=
  s.data.map Char.toLower

/-! ## AI Analysis Logic (`app.py` lines 128–145) -/

/-- The running `score` of `analyze_quality` just before the final
`return min(1.0, score)`: starts at 0.5 and adds the keyword increments
found in `f"{name} {description} {category}".lower()`. -/
def rawScore (name description category : String) : ℚ :=
  let text := pyLower (name ++ " " ++ description ++ " " ++ category)
  let score : ℚ := 1/2
  let score := if strIn "organic" text then score + 2/10 else score
  let score := if strIn "premium" text || strIn "pure" text then score + 15/100 else score
  let score := if strIn "grade a" text then score + 1/10 else score
  score

/-- `analyze_quality(name, description, category, price)`: keyword score,
capped at 1.0.  The `price` argument is unused, exactly as in the source. -/
def analyze_quality (name description category : String) (price : ℚ) : ℚ :=
  min 1 (rawScore name description category)

/-- `get_quality_label(score)` (`app.py` lines 136–140). -/
def get_quality_label (score : ℚ) : String :=
  if 9/10 ≤ score then "Premium Grade"
  else if 8/10 ≤ score then "High Quality"
  else if 6/10 ≤ score then "Standard Grade"
  else "Fair Quality"

/-- `compute_adjusted_price(base_price, quality_score)` (`app.py` lines
142–145): `round(base_price * (1 + gov_rate + bonus), 2)` with
`gov_rate = 0.05` and the quality bonus tiered at 0.8 and 0.5. -/
def compute_adjusted_price (base_price quality_score : ℚ) : ℚ :=
  let gov_rate : ℚ := 5/100
  let bonus : ℚ := if 8/10 < quality_score then 5/100
    else if 5/10 < quality_score then 2/100 else 0
  round2 (base_price * (1 + gov_rate + bonus))

/-! ### Rounding lemmas -/

theorem floor_le_roundHalfEven (x : ℚ) : ⌊x⌋ ≤ roundHalfEven x := by
  unfold roundHalfEven
  dsimp only
  split_ifs <;> omega

theorem roundHalfEven_le_floor_add_one (x : ℚ) : roundHalfEven x ≤ ⌊x⌋ + 1 := by
  unfold roundHalfEven
  dsimp only
  split_ifs <;> omega

theorem roundHalfEven_mono {x y : ℚ} (h : x ≤ y) :
    roundHalfEven x ≤ roundHalfEven y := by
  have hf : ⌊x⌋ ≤ ⌊y⌋ := Int.floor_le_floor h
  rcases lt_or_eq_of_le hf with hlt | heq
  · calc roundHalfEven x ≤ ⌊x⌋ + 1 := roundHalfEven_le_floor_add_one x
      _ ≤ ⌊y⌋ := by omega
      _ ≤ roundHalfEven y := floor_le_roundHalfEven y
  · have hq : ((⌊x⌋ : ℚ)) = ((⌊y⌋ : ℚ)) := by exact_mod_cast heq
    unfold roundHalfEven
    dsimp only
    split_ifs <;> first | omega | (exfalso; linarith)

theorem round2_mono {x y : ℚ} (h : x ≤ y) : round2 x ≤ round2 y := by
  unfold round2
  have h100 : x * 100 ≤ y * 100 := by linarith
  have := roundHalfEven_mono h100
  have hc : ((roundHalfEven (x * 100) : ℚ)) ≤ ((roundHalfEven (y * 100) : ℚ)) := by
    exact_mod_cast this
  linarith

/-! ### Score bounds -/

theorem rawScore_lb (name description category : String) :
    1/2 ≤ rawScore name description category := by
  unfold rawScore
  dsimp only
  split_ifs <;> norm_num

theorem rawScore_ub (name description category : String) :
    rawScore name description category ≤ 19/20 := by
  unfold rawScore
  dsimp only
  split_ifs <;> norm_num

/-- **C3.** `analyze_quality` always returns a score in `[0.5, 1.0]`
inclusive, and the score is strictly above `0.5` whenever any trigger
keyword (`"organic"`, `"premium"`/`"pure"`, `"grade a"`) occurs in the
lowered combined `name description category` text. -/
theorem analyze_quality_bounds (name description category : String) (price : ℚ) :
    1/2 ≤ analyze_quality name description category price
    ∧ analyze_quality name description category price ≤ 1
    ∧ ((strIn "organic" (pyLower (name ++ " " ++ description ++ " " ++ category)) = true
        ∨ strIn "premium" (pyLower (name ++ " " ++ description ++ " " ++ category)) = true
        ∨ strIn "pure" (pyLower (name ++ " " ++ description ++ " " ++ category)) = true
        ∨ strIn "grade a" (pyLower (name ++ " " ++ description ++ " " ++ category)) = true)
       → 1/2 < analyze_quality name description category price) := by
  refine ⟨le_min (by norm_num) (rawScore_lb name description category),
    min_le_left 1 _, fun hkw => ?_⟩
  have hlt : 1/2 < rawScore name description category := by
    unfold rawScore
    dsimp only
    split_ifs <;>
      first
        | (norm_num; done)
        | (exfalso; rcases hkw with h | h | h | h <;> simp_all)
  exact lt_min (by norm_num) hlt

/-- Witness for C3 at a concrete product containing the keyword
`"organic"`. -/
theorem analyze_quality_bounds_witness :
    1/2 ≤ analyze_quality "Organic Rice" "" "Grains" 100
    ∧ analyze_quality "Organic Rice" "" "Grains" 100 ≤ 1
    ∧ 1/2 < analyze_quality "Organic Rice" "" "Grains" 100 := by
  have h := analyze_quality_bounds "Organic Rice" "" "Grains" 100
  exact ⟨h.1, h.2.1, h.2.2 (Or.inl (by decide))⟩

/-- **C10.** The keyword increments sum to at most `0.95`: the running
score never exceeds `19/20`, so the `min(1.0, score)` cap never binds and
`analyze_quality` never returns `1.0`. -/
theorem analyze_quality_cap_never_binds (name description category : String) (price : ℚ) :
    rawScore name description category ≤ 19/20
    ∧ analyze_quality name description category price = rawScore name description category
    ∧ analyze_quality name description category price ≠ 1 := by
  have hub := rawScore_ub name description category
  have heq : analyze_quality name description category price
      = rawScore name description category :=
    min_eq_right (hub.trans (by norm_num))
  refine ⟨hub, heq, ?_⟩
  rw [heq]
  intro hcontra
  rw [hcontra] at hub
  norm_num at hub

/-- **C2 (amended).** `compute_adjusted_price` returns
`base*(1.05+bonus)` rounded to two decimal places (Python's `round`),
with the bonus tiered at `q > 0.8` and `q > 0.5`; for a fixed
*nonnegative* base it is monotone non-decreasing in the quality
score. -/
theorem compute_adjusted_price_rounded_monotone (b q q' : ℚ)
    (hb : 0 ≤ b) (hq : q ≤ q') :
    compute_adjusted_price b q
      = round2 (b * (105/100 + (if 8/10 < q then 5/100 else if 5/10 < q then 2/100 else 0)))
    ∧ compute_adjusted_price b q ≤ compute_adjusted_price b q' := by
  constructor
  · unfold compute_adjusted_price
    dsimp only
    congr 1
    ring_nf
  · unfold compute_adjusted_price
    dsimp only
    apply round2_mono
    have hbo : (if 8/10 < q then (5:ℚ)/100 else if 5/10 < q then 2/100 else 0)
        ≤ (if 8/10 < q' then (5:ℚ)/100 else if 5/10 < q' then 2/100 else 0) := by
      split_ifs <;> linarith
    have h1 : (1 + 5/100 + (if 8/10 < q then (5:ℚ)/100 else if 5/10 < q then 2/100 else 0))
        ≤ (1 + 5/100 + (if 8/10 < q' then (5:ℚ)/100 else if 5/10 < q' then 2/100 else 0)) := by
      linarith
    exact mul_le_mul_of_nonneg_left h1 hb

/-- Witness for the amended C2 at `base = 2`, `q = 0.3 ≤ q' = 0.9`. -/
theorem compute_adjusted_price_rounded_monotone_witness :
    compute_adjusted_price 2 (3/10)
      = round2 (2 * (105/100 + (if (8:ℚ)/10 < 3/10 then 5/100 else if (5:ℚ)/10 < 3/10 then 2/100 else 0)))
    ∧ compute_adjusted_price 2 (3/10) ≤ compute_adjusted_price 2 (9/10) :=
  compute_adjusted_price_rounded_monotone 2 (3/10) (9/10) (by norm_num) (by norm_num)

/-- **C2 as stated is false on the code**: the returned value is the
two-decimal rounding of `base*(1.05+bonus)`, not the product itself
(at `base = 0.01`, `q = 0.3` the product is `0.0105` but the function
returns `0.01`), and monotonicity in `q` fails for a negative base
(`base = -100`: `q = 0.3` gives `-105`, `q' = 0.9` gives `-110`). -/
theorem compute_adjusted_price_claim_cex :
    compute_adjusted_price (1/100) (3/10)
      ≠ (1/100) * (105/100 + (if (8:ℚ)/10 < 3/10 then 5/100 else if (5:ℚ)/10 < 3/10 then 2/100 else 0))
    ∧ ¬ (compute_adjusted_price (-100) (3/10) ≤ compute_adjusted_price (-100) (9/10)) := by
  have hbo1 : (if (8:ℚ)/10 < 3/10 then (5:ℚ)/100 else if (5:ℚ)/10 < 3/10 then 2/100 else 0) = 0 := by
    norm_num
  have hbo2 : (if (8:ℚ)/10 < 9/10 then (5:ℚ)/100 else if (5:ℚ)/10 < 9/10 then 2/100 else 0) = 5/100 := by
    norm_num
  have h1 : compute_adjusted_price (1/100) (3/10) = 1/100 := by
    unfold compute_adjusted_price round2 roundHalfEven
    dsimp only
    rw [hbo1]
    norm_num
  have h2 : compute_adjusted_price (-100) (3/10) = -105 := by
    unfold compute_adjusted_price round2 roundHalfEven
    dsimp only
    rw [hbo1]
    norm_num
  have h3 : compute_adjusted_price (-100) (9/10) = -110 := by
    unfold compute_adjusted_price round2 roundHalfEven
    dsimp only
    rw [hbo2]
    norm_num
  rw [h1, h2, h3, hbo1]
  norm_num

/-! ## Data model (MongoDB collections as Lean lists)

`ObjectId`s are modelled as natural numbers; a handler that needs a fresh
id receives it as an argument.  An `Option ℕ` id argument models the
`ObjectId(...)` parse of a client-supplied id string, `none` being the
parse failure (which the handlers catch and turn into an error
response). -/

/-- A document of the `users` collection, as written by `register`
(profile-only fields such as `phone` and `bank_details` are not modelled:
no property mentions them). -/
structure User where
  name : String
  email : String
  password : String
  user_type : String
  user_id : Option String
  wallet : ℤ
  deriving Repr, DecidableEq

/-- A document of the `products` collection, as written by `add_product`. -/
structure Product where
  id : ℕ
  name : String
  price : ℚ
  adjusted_price : ℚ
  category : String
  description : String
  address : String
  image : String
  owner : Option String
  owner_type : String
  quality_score : ℚ
  user_quality : String
  quantity : ℤ
  deriving Repr, DecidableEq

/-- A document of the `orders` collection, as written by `verify_payment`
and mutated by `refund_order`. -/
structure Order where
  id : ℕ
  user : Option String
  product_id : ℕ
  product_name : String
  quantity : ℤ
  amount : ℤ
  payment_method : String
  delivery_address : String
  pincode : String
  status : String
  delivery_status : String
  shipment_id : Option ℕ
  razorpay_payment_id : Option String
  refund_id : Option String
  deriving Repr, DecidableEq

/-- The database state: the three collections the verified handlers
touch. -/
structure DB where
  users : List User
  products : List Product
  orders : List Order
  deriving Repr, DecidableEq

/-- The Flask session fields the verified handlers read. -/
structure Session where
  user : Option String
  user_type : String
  deriving Repr, DecidableEq

/-- The observable response of a handler: a redirect to the login page, a
flashed message (error/info/success), or a JSON payload (error with HTTP
status, or the success payload of `verify_payment`). -/
inductive HResult where
  | redirectLogin
  | flashError (msg : String)
  | flashInfo (msg : String)
  | flashSuccess (msg : String)
  | jsonError (code : ℕ) (msg : String)
  | jsonSuccess (shipment_id : Option ℕ)
  deriving Repr, DecidableEq

/-- Python's `email.strip()`: drop leading and trailing whitespace. -/
def stripChars (l : List Char) : List Char :=
  ((l.dropWhile Char.isWhitespace).reverse.dropWhile Char.isWhitespace).reverse

/-- `request.form["email"].strip().lower()` as done by `register` and
`login`. -/
def normEmail (email : String) : String :=
  ⟨(stripChars email.data).map Char.toLower⟩

/-- Python's `s.upper()` (ASCII raising), used on the fetched payment
method. -/
def upperStr (s : String) : String :=
  ⟨s.data.map Char.toUpper⟩

/-! ## `register` (`app.py` lines 168–204, POST branch)

The salted `generate_password_hash` value and the 6-digit
`random.randint` are oracle arguments.  The success flash message
carries the generated id when one exists (the `capitalize()` of the role
in the message is not modelled). -/

def register (db : DB) (name email password user_type : String)
    (hashed : String) (rand : ℕ) : DB × HResult :=
  let email := normEmail email
  match db.users.find? (fun u => u.email == email) with
  | some _ => (db, .flashError "User already exists!")
  | none =>
      let user_id : Option String :=
        if user_type == "farmer" then some ("FRM-" ++ toString rand)
        else if user_type == "business" then some ("BUS-" ++ toString rand)
        else none
      let flash_msg :=
        match user_id with
        | some i => "Registration successful!" ++ " Your " ++ user_type ++ " ID is " ++ i
        | none => "Registration successful!"
      ({ db with users := db.users ++
          [{ name := name, email := email, password := hashed,
             user_type := user_type, user_id := user_id, wallet := 0 }] },
       .flashSuccess flash_msg)

/-! ## `add_product` (`app.py` lines 279–374) -/

/-- The parsed `add_product` form.  `price = none` models a
`float(price_str)` parse failure, `quantity = none` an `int(...)` parse
failure (the latter raises and is caught by the handler's outer
`except`).  `image` is the computed `image_url` (upload handling is not
modelled beyond its result). -/
structure AddProductForm where
  name : String
  price : Option ℚ
  category : String
  description : String
  address : String
  user_quality : String
  quantity : Option ℤ
  image : String
  deriving Repr, DecidableEq

def add_product (db : DB) (sess : Session) (form : AddProductForm)
    (pid : ℕ) : DB × HResult :=
  match sess.user with
  | none => (db, .redirectLogin)
  | some user =>
    if ¬ (sess.user_type == "farmer" || sess.user_type == "business"
          || sess.user_type == "admin") then
      (db, .flashError "Only farmers and businesses can list products!")
    else if form.name == "" then
      (db, .flashError "Product name is required.")
    else
      match form.price with
      | none => (db, .flashError "Invalid price provided. Please enter a numeric value.")
      | some price =>
        match form.quantity with
        | none => (db, .flashError "Upload Error: invalid quantity")
        | some quantity =>
          let quality := analyze_quality form.name form.description form.category price
          let adj_price := compute_adjusted_price price quality
          ({ db with products := db.products ++
              [{ id := pid, name := form.name, price := price,
                 adjusted_price := adj_price, category := form.category,
                 description := form.description, address := form.address,
                 image := form.image, owner := some user,
                 owner_type := sess.user_type, quality_score := quality,
                 user_quality := form.user_quality, quantity := quantity }] },
           .flashSuccess "Product listed successfully with AI Quality Score!")

/-! ## `delete_product` (`app.py` lines 828–850) -/

/-- MongoDB `delete_one({"_id": pid})`: remove the first document with
the given id. -/
def deleteFirstProduct (ps : List Product) (pid : ℕ) : List Product :=
  match ps with
  | [] => []
  | p :: rest => if p.id == pid then rest else p :: deleteFirstProduct rest pid

def delete_product (db : DB) (sess : Session) (pid : Option ℕ) : DB × HResult :=
  match sess.user with
  | none => (db, .redirectLogin)
  | some user =>
    match pid with
    | none => (db, .flashError "Invalid product reference.")
    | some pid =>
      match db.products.find? (fun p => p.id == pid) with
      | none => (db, .flashError "Product not found!")
      | some product =>
        if sess.user_type == "admin" || product.owner == some user then
          ({ db with products := deleteFirstProduct db.products pid },
           .flashSuccess "Product deleted successfully!")
        else
          (db, .flashError "Unauthorized to delete this product!")

/-! ## `verify_payment` (`app.py` lines 457–588) -/

/-- The JSON body of a `/verify_payment` request, after parsing.
`product_id = none` models an `ObjectId(data.get('product_id'))` parse
failure (which raises and is caught by the handler's outer `except`,
yielding a 500 with no mutation); `quantity` is the parsed
`int(data.get('quantity', 1))` and `amount` the `data.get('amount')`
stored on the order (minor currency units). -/
structure PayData where
  razorpay_order_id : Option String
  razorpay_payment_id : Option String
  razorpay_signature : Option String
  product_id : Option ℕ
  quantity : ℤ
  address : String
  pincode : String
  amount : ℤ
  deriving Repr, DecidableEq

/-- The external-service environment of one `/verify_payment` request:
whether the Razorpay client was initialized, whether
`verify_payment_signature` accepts the submitted signature, whether a
Shiprocket token is held, the `shipment_id` the Shiprocket call would
yield (`none` = the call fails or returns no id), and the outcome of
`razorpay_client.payment.fetch` (`none` = the fetch raises, `some m` =
it returns with `method` field `m`). -/
structure PayEnv where
  clientReady : Bool
  sigOk : Bool
  shipToken : Bool
  shipResult : Option ℕ
  fetchMethod : Option (Option String)
  deriving Repr, DecidableEq

/-- The order's `payment_method` label: `"Razorpay"` when
`razorpay_client.payment.fetch` raises, else the uppercased `method`
field (itself defaulting to `"Razorpay"`). -/
def fetchedMethod (fm : Option (Option String)) : String :=
  match fm with
  | none => "Razorpay"
  | some m => upperStr (m.getD "Razorpay")

/-- MongoDB `update_one({"_id": pid}, {"$set": {"quantity": q}})`: set
the quantity of the first product with the given id. -/
def setQuantity (ps : List Product) (pid : ℕ) (q : ℤ) : List Product :=
  match ps with
  | [] => []
  | p :: rest =>
      if p.id == pid then { p with quantity := q } :: rest
      else p :: setQuantity rest pid q

def verify_payment (db : DB) (sess : Session) (data : Option PayData)
    (env : PayEnv) (oid : ℕ) : DB × HResult :=
  match data with
  | none => (db, .jsonError 400 "No data received")
  | some d =>
    if ¬ env.clientReady then
      (db, .jsonError 500 "Razorpay Client not initialized on server")
    else if ¬ env.sigOk then
      (db, .jsonError 400 "Security Check Failed: Payment Signature Mismatch")
    else
      match d.product_id with
      | none => (db, .jsonError 500 "Invalid product id")
      | some pid =>
        let product := db.products.find? (fun p => p.id == pid)
        let shipment_id : Option ℕ :=
          if env.shipToken && product.isSome then env.shipResult else none
        let payment_method : String := fetchedMethod env.fetchMethod
        let order : Order :=
          { id := oid, user := sess.user, product_id := pid,
            product_name := match product with | some p => p.name | none => "Unknown",
            quantity := d.quantity, amount := d.amount,
            payment_method := payment_method,
            delivery_address := d.address, pincode := d.pincode,
            status := "paid", delivery_status := "Processing",
            shipment_id := shipment_id,
            razorpay_payment_id := d.razorpay_payment_id,
            refund_id := none }
        let db1 : DB := { db with orders := db.orders ++ [order] }
        let db2 : DB :=
          match product with
          | some p =>
              { db1 with products :=
                  setQuantity db1.products pid (max 0 (p.quantity - d.quantity)) }
          | none => db1
        (db2, .jsonSuccess shipment_id)

/-! ## `refund_order` (`app.py` lines 658–717) -/

/-- MongoDB update of the refund action: set `status` to `"Refunded"`
and record the refund id on the first order with the given id
(`refunded_at` is a timestamp, not modelled). -/
def setRefunded (os : List Order) (oid : ℕ) (rid : Option String) : List Order :=
  match os with
  | [] => []
  | o :: rest =>
      if o.id == oid then { o with status := "Refunded", refund_id := rid } :: rest
      else o :: setRefunded rest oid rid

/-- The outcome of one `/admin/refund_order/<id>` request: the new
database, the flashed message (or redirect), and whether the Razorpay
refund endpoint was called. -/
structure RefundOutcome where
  db : DB
  result : HResult
  gatewayCalled : Bool
  deriving Repr, DecidableEq

/-- `refund_order`.  `oid = none` models an `ObjectId` parse failure of
the cleaned id (raises, caught by the handler's `except`).  `gw` is the
outcome of `razorpay_client.payment.refund`: `.error e` = it raises
(caught, flashed), `.ok rid` = it returns with `id` field `rid`. -/
def refund_order (db : DB) (sess : Session) (oid : Option ℕ)
    (clientReady : Bool) (gw : Except String (Option String)) : RefundOutcome :=
  match sess.user with
  | none => ⟨db, .redirectLogin, false⟩
  | some _ =>
    if ¬ (sess.user_type == "admin") then ⟨db, .flashError "Unauthorized access!", false⟩
    else
      match oid with
      | none => ⟨db, .flashError "Refund Failed: invalid order id", false⟩
      | some oid =>
        match db.orders.find? (fun o => o.id == oid) with
        | none => ⟨db, .flashError "Order not found.", false⟩
        | some order =>
          if order.status == "Refunded" then
            ⟨db, .flashInfo "Order is already refunded.", false⟩
          else
            match order.razorpay_payment_id with
            | none => ⟨db, .flashError "No payment ID found for this order. Cannot refund.", false⟩
            | some payment_id =>
              if payment_id == "" then
                ⟨db, .flashError "No payment ID found for this order. Cannot refund.", false⟩
              else if ¬ clientReady then
                ⟨db, .flashError "Razorpay client not ready.", false⟩
              else
                match gw with
                | .error e => ⟨db, .flashError ("Refund Failed: " ++ e), true⟩
                | .ok rid =>
                    ⟨{ db with orders := setRefunded db.orders oid rid },
                     .flashSuccess "Refund processed successfully!", true⟩

/-! ## C1: invalid payment signature -/

/-- **C1.** When the Razorpay client is initialized but the submitted
payment signature does not verify, `verify_payment` returns the
authentication error (HTTP 400, signature-mismatch message) and leaves
the database completely unchanged: no order is inserted and no product
quantity is decremented. -/
theorem verify_payment_bad_signature_no_mutation
    (db : DB) (sess : Session) (d : PayData) (env : PayEnv) (oid : ℕ)
    (hc : env.clientReady = true) (hs : env.sigOk = false) :
    verify_payment db sess (some d) env oid
      = (db, .jsonError 400 "Security Check Failed: Payment Signature Mismatch") := by
  simp [verify_payment, hc, hs]

/-- Witness for C1: a tampered signature on a concrete request. -/
theorem verify_payment_bad_signature_no_mutation_witness :
    verify_payment ⟨[], [], []⟩ ⟨some "buyer@x.com", "citizen"⟩
        (some ⟨some "order_1", some "pay_1", some "bad_sig", some 0, 1, "addr", "110001", 10000⟩)
        ⟨true, false, false, none, none⟩ 0
      = (⟨[], [], []⟩, .jsonError 400 "Security Check Failed: Payment Signature Mismatch") :=
  verify_payment_bad_signature_no_mutation _ _ _ _ _ rfl rfl

/-! ## C5: verified payment for an unknown product id -/

/-- **C5.** When the signature verifies but the product id matches no
document in `products`, `verify_payment` still inserts an order — with
the product name recorded as `"Unknown"`, status `"paid"` and no
shipment — and succeeds; the `products` and `users` collections are
untouched. -/
theorem verify_payment_unknown_product_still_orders
    (db : DB) (sess : Session) (d : PayData) (env : PayEnv) (oid pid : ℕ)
    (hc : env.clientReady = true) (hs : env.sigOk = true)
    (hp : d.product_id = some pid)
    (hf : db.products.find? (fun p => p.id == pid) = none) :
    verify_payment db sess (some d) env oid
      = ({ db with orders := db.orders ++
            [{ id := oid, user := sess.user, product_id := pid,
               product_name := "Unknown", quantity := d.quantity,
               amount := d.amount,
               payment_method := fetchedMethod env.fetchMethod,
               delivery_address := d.address, pincode := d.pincode,
               status := "paid", delivery_status := "Processing",
               shipment_id := none,
               razorpay_payment_id := d.razorpay_payment_id,
               refund_id := none }] },
         .jsonSuccess none) := by
  simp [verify_payment, hc, hs, hp, hf]

/-- Witness for C5: a verified payment against an id absent from the
(empty) products collection. -/
theorem verify_payment_unknown_product_still_orders_witness :
    verify_payment ⟨[], [], []⟩ ⟨some "buyer@x.com", "citizen"⟩
        (some ⟨some "order_1", some "pay_1", some "sig", some 5, 2, "addr", "110001", 10000⟩)
        ⟨true, true, true, some 77, some (some "upi")⟩ 3
      = (⟨[], [],
          [{ id := 3, user := some "buyer@x.com", product_id := 5,
             product_name := "Unknown", quantity := 2, amount := 10000,
             payment_method := fetchedMethod (some (some "upi")),
             delivery_address := "addr", pincode := "110001",
             status := "paid", delivery_status := "Processing",
             shipment_id := none, razorpay_payment_id := some "pay_1",
             refund_id := none }]⟩,
         .jsonSuccess none) :=
  verify_payment_unknown_product_still_orders _ _ _ _ _ _ rfl rfl rfl rfl

/-! ## C6: refunding an already-refunded order -/

/-- **C6.** For an admin request on an order whose status is already
`"Refunded"`, `refund_order` flashes the informational
"already refunded" message, does not call the Razorpay refund endpoint,
and leaves the database (in particular that order) unchanged. -/
theorem refund_order_already_refunded_noop
    (db : DB) (u : String) (oid : ℕ) (clientReady : Bool)
    (gw : Except String (Option String)) (order : Order)
    (hfind : db.orders.find? (fun o => o.id == oid) = some order)
    (hst : order.status = "Refunded") :
    refund_order db ⟨some u, "admin"⟩ (some oid) clientReady gw
      = ⟨db, .flashInfo "Order is already refunded.", false⟩ := by
  simp [refund_order, hfind, hst]

/-- Witness for C6: a second refund of a concrete refunded order. -/
theorem refund_order_already_refunded_noop_witness :
    refund_order
        ⟨[], [],
          [{ id := 0, user := some "b@x.com", product_id := 0,
             product_name := "Rice", quantity := 1, amount := 10000,
             payment_method := "UPI", delivery_address := "addr",
             pincode := "110001", status := "Refunded",
             delivery_status := "Processing", shipment_id := none,
             razorpay_payment_id := some "pay_1", refund_id := some "rfnd_0" }]⟩
        ⟨some "admin@x.com", "admin"⟩ (some 0) true (.ok (some "rfnd_1"))
      = ⟨⟨[], [],
          [{ id := 0, user := some "b@x.com", product_id := 0,
             product_name := "Rice", quantity := 1, amount := 10000,
             payment_method := "UPI", delivery_address := "addr",
             pincode := "110001", status := "Refunded",
             delivery_status := "Processing", shipment_id := none,
             razorpay_payment_id := some "pay_1", refund_id := some "rfnd_0" }]⟩,
         .flashInfo "Order is already refunded.", false⟩ :=
  refund_order_already_refunded_noop _ _ _ _ _ _ rfl rfl

/-! ## C7: duplicate email registration -/

/-- If some stored user already has the normalized form of the submitted
email, `register` rejects with "User already exists!" and leaves the
database unchanged. -/
theorem register_of_present (db : DB)
    (name email password user_type hashed : String) (rand : ℕ)
    (h : ∃ u ∈ db.users, u.email = normEmail email) :
    register db name email password user_type hashed rand
      = (db, .flashError "User already exists!") := by
  obtain ⟨u, hu, he⟩ := h
  have hsome : (db.users.find? (fun v => v.email == normEmail email)).isSome := by
    rw [List.find?_isSome]
    exact ⟨u, hu, by simp [he]⟩
  obtain ⟨v, hv⟩ := Option.isSome_iff_exists.mp hsome
  simp [register, hv]

/-- **C7.** A registration attempt with an email already present in
`users` (as `register` stores it: stripped and lowercased) fails with an
error and mutates nothing; in particular, after any registration of an
email, a second registration attempt with the same email fails and
leaves the collection exactly as the first attempt left it. -/
theorem register_duplicate_email_rejected (db : DB)
    (name email password user_type hashed : String) (rand : ℕ)
    (name2 password2 user_type2 hashed2 : String) (rand2 : ℕ) :
    ((∃ u ∈ db.users, u.email = normEmail email) →
      register db name email password user_type hashed rand
        = (db, .flashError "User already exists!"))
    ∧ register ((register db name email password user_type hashed rand).1)
        name2 email password2 user_type2 hashed2 rand2
      = ((register db name email password user_type hashed rand).1,
         .flashError "User already exists!") := by
  refine ⟨fun h => register_of_present db name email password user_type hashed rand h, ?_⟩
  apply register_of_present
  cases hf : db.users.find? (fun v => v.email == normEmail email) with
  | some v =>
      have hm : v ∈ db.users := List.mem_of_find?_eq_some hf
      have hv := List.find?_some hf
      refine ⟨v, ?_, by simpa using hv⟩
      simp [register, hf, hm]
  | none =>
      simp only [register, hf]
      exact ⟨_, List.mem_append_right _ (List.mem_singleton_self _), rfl⟩

/-- A stored user for the C7 witness. -/
def storedUser : User :=
  { name := "A", email := "a@b.c", password := "h",
    user_type := "citizen", user_id := none, wallet := 0 }

/-- Witness for C7: registering over a stored `"a@b.c"` fails without
mutation, and a second registration of `" A@b.C "` (which normalizes to
the stored form) fails without mutation. -/
theorem register_duplicate_email_rejected_witness :
    (register ⟨[storedUser], [], []⟩ "A2" "a@b.c" "pw" "citizen" "h2" 7
      = (⟨[storedUser], [], []⟩, .flashError "User already exists!"))
    ∧ register ((register ⟨[], [], []⟩ "A" " A@b.C " "pw" "citizen" "h" 1).1)
        "A2" " A@b.C " "pw2" "citizen" "h2" 2
      = ((register ⟨[], [], []⟩ "A" " A@b.C " "pw" "citizen" "h" 1).1,
         .flashError "User already exists!") :=
  ⟨(register_duplicate_email_rejected ⟨[storedUser], [], []⟩
      "A2" "a@b.c" "pw" "citizen" "h2" 7 "x" "x" "x" "x" 0).1
    ⟨storedUser, List.mem_singleton_self _, by decide⟩,
   (register_duplicate_email_rejected ⟨[], [], []⟩
      "A" " A@b.C " "pw" "citizen" "h" 1 "A2" "pw2" "citizen" "h2" 2).2⟩

/-! ## C8: delete_product authorization -/

/-- **C8.** When the requested product exists, `delete_product` removes
it exactly when the actor's role is admin or the actor is the listing's
owner; any other logged-in actor gets the authorization message and the
database is unchanged. -/
theorem delete_product_authorization
    (db : DB) (user user_type : String) (pid : ℕ) (product : Product)
    (hfind : db.products.find? (fun p => p.id == pid) = some product) :
    ((user_type = "admin" ∨ product.owner = some user) →
      delete_product db ⟨some user, user_type⟩ (some pid)
        = ({ db with products := deleteFirstProduct db.products pid },
           .flashSuccess "Product deleted successfully!"))
    ∧ (user_type ≠ "admin" → product.owner ≠ some user →
      delete_product db ⟨some user, user_type⟩ (some pid)
        = (db, .flashError "Unauthorized to delete this product!")) := by
  constructor
  · rintro (h | h) <;> simp [delete_product, hfind, h]
  · intro h1 h2
    simp [delete_product, hfind, h1, h2]

/-- A listing owned by `"alice@x.com"`, for the C8 witness. -/
def aliceProduct : Product :=
  { id := 0, name := "Rice", price := 100, adjusted_price := 107,
    category := "Grains", description := "", address := "",
    image := "", owner := some "alice@x.com", owner_type := "farmer",
    quality_score := 1/2, user_quality := "", quantity := 3 }

/-- Witness for C8 at a concrete one-product database: the owner may
delete; a stranger may not and the state is untouched. -/
theorem delete_product_authorization_witness :
    (delete_product ⟨[], [aliceProduct], []⟩ ⟨some "alice@x.com", "farmer"⟩ (some 0)
      = (⟨[], [], []⟩, .flashSuccess "Product deleted successfully!"))
    ∧ delete_product ⟨[], [aliceProduct], []⟩ ⟨some "bob@x.com", "citizen"⟩ (some 0)
      = (⟨[], [aliceProduct], []⟩, .flashError "Unauthorized to delete this product!") :=
  ⟨(delete_product_authorization ⟨[], [aliceProduct], []⟩
      "alice@x.com" "farmer" 0 aliceProduct rfl).1 (Or.inr rfl),
   (delete_product_authorization ⟨[], [aliceProduct], []⟩
      "bob@x.com" "citizen" 0 aliceProduct rfl).2
     (by decide) (by simp [aliceProduct])⟩

/-! ## C4: product quantities -/

/-- Every product in `setQuantity ps pid q` was already in `ps` or has
quantity `q`. -/
theorem mem_setQuantity (ps : List Product) (pid : ℕ) (q : ℤ) :
    ∀ p' ∈ setQuantity ps pid q, p' ∈ ps ∨ p'.quantity = q := by
  induction ps with
  | nil => intro p' h; simp [setQuantity] at h
  | cons p rest ih =>
      intro p' h
      by_cases hc : (p.id == pid) = true
      · rw [setQuantity, if_pos hc] at h
        rcases List.mem_cons.mp h with h | h
        · exact Or.inr (by rw [h])
        · exact Or.inl (List.mem_cons_of_mem _ h)
      · rw [setQuantity, if_neg hc] at h
        rcases List.mem_cons.mp h with h | h
        · exact Or.inl (h ▸ List.mem_cons_self _ _)
        · rcases ih p' h with h | h
          · exact Or.inl (List.mem_cons_of_mem _ h)
          · exact Or.inr h

/-- **C4 (amended).** The quantity decrement of `verify_payment` is
floored at zero, so every product it touches ends up with a nonnegative
quantity; `add_product`, however, stores the client-submitted quantity
unvalidated, so a freshly created product has nonnegative quantity only
when the submitted quantity was nonnegative. -/
theorem product_quantity_nonneg
    (db : DB) (sess sess' : Session) (data : Option PayData) (env : PayEnv)
    (oid : ℕ) (form : AddProductForm) (pid : ℕ) (q : ℤ) :
    (∀ p' ∈ ((verify_payment db sess data env oid).1).products,
        p' ∈ db.products ∨ 0 ≤ p'.quantity)
    ∧ (form.quantity = some q → 0 ≤ q →
        ∀ p' ∈ ((add_product db sess' form pid).1).products,
          p' ∈ db.products ∨ 0 ≤ p'.quantity) := by
  constructor
  · intro p' hp'
    rcases data with _ | d
    · exact Or.inl (by simpa [verify_payment] using hp')
    · obtain ⟨cr, sg, st, sr, fm⟩ := env
      cases cr
      · exact Or.inl (by simpa [verify_payment] using hp')
      · cases sg
        · exact Or.inl (by simpa [verify_payment] using hp')
        · obtain ⟨roid, rpid, rsig, pid?, qty, addr, pin, amt⟩ := d
          rcases pid? with _ | pid'
          · exact Or.inl (by simpa [verify_payment] using hp')
          · cases hf : db.products.find? (fun p => p.id == pid') with
            | none => exact Or.inl (by simpa [verify_payment, hf] using hp')
            | some p =>
                simp only [verify_payment, hf] at hp'
                rcases mem_setQuantity _ _ _ p' hp' with h | h
                · exact Or.inl h
                · exact Or.inr (h ▸ le_max_left 0 _)
  · intro hfq hq p' hp'
    rcases sess' with ⟨_ | user, utype⟩
    · exact Or.inl (by simpa [add_product] using hp')
    · by_cases hrole : (utype == "farmer" || utype == "business" || utype == "admin") = true
      · by_cases hname : (form.name == "") = true
        · exact Or.inl (by simpa [add_product, hrole, hname] using hp')
        · rcases hpr : form.price with _ | price
          · exact Or.inl (by simpa [add_product, hrole, hname, hpr] using hp')
          · simp only [add_product, hrole, hname, hpr, hfq] at hp'
            simp at hp'
            rcases hp' with h | rfl
            · exact Or.inl h
            · exact Or.inr hq
      · exact Or.inl (by simpa [add_product, hrole] using hp')

/-- **C4 as stated is false on the code**: `add_product` accepts the
client-submitted quantity without validation, so creating a product with
quantity `-1` stores a negative quantity. -/
theorem add_product_negative_quantity_cex :
    ∃ p' ∈ ((add_product ⟨[], [], []⟩ ⟨some "f@x.com", "farmer"⟩
        { name := "Rice", price := some 100, category := "Grains",
          description := "", address := "", user_quality := "",
          quantity := some (-1), image := "" } 0).1).products,
      p'.quantity < 0 := by
  refine ⟨_, List.mem_append_right _ (List.mem_singleton_self _), by norm_num⟩

/-- Witness for the amended C4: a verified checkout of 2 units against a
stock of 3 ends with quantity `1 ≥ 0`, and a creation with submitted
quantity `3 ≥ 0` stores `3 ≥ 0`. -/
theorem product_quantity_nonneg_witness :
    (∀ p' ∈ ((verify_payment ⟨[], [aliceProduct], []⟩ ⟨some "b@x.com", "citizen"⟩
        (some ⟨some "o1", some "p1", some "s", some 0, 2, "addr", "110001", 21400⟩)
        ⟨true, true, false, none, none⟩ 0).1).products,
      p' ∈ [aliceProduct] ∨ 0 ≤ p'.quantity)
    ∧ (∀ p' ∈ ((add_product ⟨[], [], []⟩ ⟨some "f@x.com", "farmer"⟩
        { name := "Rice", price := some 100, category := "Grains",
          description := "", address := "", user_quality := "",
          quantity := some 3, image := "" } 0).1).products,
      p' ∈ ([] : List Product) ∨ 0 ≤ p'.quantity) :=
  ⟨(product_quantity_nonneg ⟨[], [aliceProduct], []⟩ ⟨some "b@x.com", "citizen"⟩
      ⟨some "f@x.com", "farmer"⟩
      (some ⟨some "o1", some "p1", some "s", some 0, 2, "addr", "110001", 21400⟩)
      ⟨true, true, false, none, none⟩ 0
      { name := "Rice", price := some 100, category := "Grains",
        description := "", address := "", user_quality := "",
        quantity := some 3, image := "" } 0 3).1,
   (product_quantity_nonneg ⟨[], [], []⟩ ⟨some "b@x.com", "citizen"⟩
      ⟨some "f@x.com", "farmer"⟩
      (some ⟨some "o1", some "p1", some "s", some 0, 2, "addr", "110001", 21400⟩)
      ⟨true, true, false, none, none⟩ 0
      { name := "Rice", price := some 100, category := "Grains",
        description := "", address := "", user_quality := "",
        quantity := some 3, image := "" } 0 3).2 rfl (by norm_num)⟩

/-! ## C9: order status only moves forward -/

/-- One order's allowed evolution across a single request: unchanged, or
(from `"paid"`) refunded — only `status` and `refund_id` change. -/
def statusStep (o o' : Order) : Prop :=
  o' = o ∨ (o.status = "paid"
    ∧ ∃ rid, o' = { o with status := "Refunded", refund_id := rid })

theorem forall₂_statusStep_refl (os : List Order) :
    List.Forall₂ statusStep os os :=
  List.forall₂_same.mpr (fun _ _ => Or.inl rfl)

/-- `setRefunded` relates pointwise to the original list by `statusStep`
when the first id-match (the order the handler examined) has status
`"paid"`. -/
theorem setRefunded_statusStep (os : List Order) (oid : ℕ) (rid : Option String)
    (order : Order)
    (hfind : os.find? (fun o => o.id == oid) = some order)
    (hpaid : order.status = "paid") :
    List.Forall₂ statusStep os (setRefunded os oid rid) := by
  induction os with
  | nil => simp [List.find?] at hfind
  | cons o rest ih =>
      by_cases hc : (o.id == oid) = true
      · have ho : o = order := by simpa [List.find?, hc] using hfind
        rw [setRefunded, if_pos hc]
        exact List.Forall₂.cons
          (Or.inr ⟨by rw [ho]; exact hpaid, rid, rfl⟩)
          (forall₂_statusStep_refl rest)
      · have hfind' : rest.find? (fun x => x.id == oid) = some order := by
          simpa [List.find?, hc] using hfind
        rw [setRefunded, if_neg hc]
        exact List.Forall₂.cons (Or.inl rfl) (ih hfind')

/-- **C9.** Across every modelled state-mutating handler, an order's
status only moves forward: `register`, `add_product` and
`delete_product` never touch `orders`; `verify_payment` only appends
orders with status `"paid"`; and, provided every stored status is
`"paid"` or `"Refunded"` (the data model's statuses), `refund_order`
either leaves each order unchanged or moves a `"paid"` order to
`"Refunded"` — in particular a `"Refunded"` order is never changed. -/
theorem order_status_moves_forward :
    (∀ (db : DB) (name email password user_type hashed : String) (rand : ℕ),
        ((register db name email password user_type hashed rand).1).orders = db.orders)
    ∧ (∀ (db : DB) (sess : Session) (form : AddProductForm) (pid : ℕ),
        ((add_product db sess form pid).1).orders = db.orders)
    ∧ (∀ (db : DB) (sess : Session) (pid : Option ℕ),
        ((delete_product db sess pid).1).orders = db.orders)
    ∧ (∀ (db : DB) (sess : Session) (data : Option PayData) (env : PayEnv) (oid : ℕ),
        ∃ new : List Order, (∀ o ∈ new, o.status = "paid")
          ∧ ((verify_payment db sess data env oid).1).orders = db.orders ++ new)
    ∧ (∀ (db : DB) (sess : Session) (oid : Option ℕ) (clientReady : Bool)
          (gw : Except String (Option String)),
        (∀ o ∈ db.orders, o.status = "paid" ∨ o.status = "Refunded") →
        List.Forall₂ statusStep db.orders
          ((refund_order db sess oid clientReady gw).db).orders) := by
  refine ⟨?_, ?_, ?_, ?_, ?_⟩
  · intro db name email password user_type hashed rand
    cases hf : db.users.find? (fun v => v.email == normEmail email) <;>
      simp [register, hf]
  · intro db sess form pid
    obtain ⟨u?, ut⟩ := sess
    rcases u? with _ | u
    · rfl
    · obtain ⟨n, pr, cat, desc, addr, uq, qt, img⟩ := form
      cases pr <;> cases qt <;> simp only [add_product] <;> split_ifs <;> rfl
  · intro db sess pid
    obtain ⟨u?, ut⟩ := sess
    rcases u? with _ | u
    · rfl
    · rcases pid with _ | pid'
      · rfl
      · cases hf : db.products.find? (fun p => p.id == pid') <;>
          simp only [delete_product, hf] <;> split_ifs <;> rfl
  · intro db sess data env oid
    rcases data with _ | d
    · exact ⟨[], by simp, by simp [verify_payment]⟩
    · obtain ⟨cr, sg, st, sr, fm⟩ := env
      cases cr
      · exact ⟨[], by simp, by simp [verify_payment]⟩
      · cases sg
        · exact ⟨[], by simp, by simp [verify_payment]⟩
        · obtain ⟨roid, rpid, rsig, pid?, qty, addr, pin, amt⟩ := d
          rcases pid? with _ | pid'
          · exact ⟨[], by simp, by simp [verify_payment]⟩
          · cases hf : db.products.find? (fun p => p.id == pid') with
            | none =>
                simp only [verify_payment, hf]
                refine ⟨_, ?_, rfl⟩
                intro o ho
                rcases List.mem_singleton.mp ho with rfl
                rfl
            | some p =>
                simp only [verify_payment, hf]
                refine ⟨_, ?_, rfl⟩
                intro o ho
                rcases List.mem_singleton.mp ho with rfl
                rfl
  · intro db sess oid clientReady gw hst
    obtain ⟨u?, ut⟩ := sess
    rcases u? with _ | u
    · exact forall₂_statusStep_refl _
    · by_cases hut : (ut == "admin") = true
      · rcases oid with _ | oid'
        · simp only [refund_order, hut]
          exact forall₂_statusStep_refl _
        · cases hfind : db.orders.find? (fun o => o.id == oid') with
          | none =>
              simp only [refund_order, hut, hfind]
              exact forall₂_statusStep_refl _
          | some order =>
              by_cases hstatus : (order.status == "Refunded") = true
              · simp only [refund_order, hut, hfind, hstatus]
                exact forall₂_statusStep_refl _
              · have hpaid : order.status = "paid" := by
                  rcases hst order (List.mem_of_find?_eq_some hfind) with h | h
                  · exact h
                  · exact absurd h (by simpa using hstatus)
                rcases hrp : order.razorpay_payment_id with _ | pidStr
                · simp only [refund_order, hut, hfind, hstatus, hrp]
                  exact forall₂_statusStep_refl _
                · by_cases hemp : (pidStr == "") = true
                  · simp only [refund_order, hut, hfind, hstatus, hrp, hemp]
                    exact forall₂_statusStep_refl _
                  · cases clientReady with
                    | false =>
                        simp only [refund_order, hut, hfind, hstatus, hrp, hemp]
                        exact forall₂_statusStep_refl _
                    | true =>
                        cases gw with
                        | error e =>
                            simp only [refund_order, hut, hfind, hstatus, hrp, hemp]
                            exact forall₂_statusStep_refl _
                        | ok rid =>
                            simp only [refund_order, hut, hfind, hstatus, hrp, hemp]
                            exact setRefunded_statusStep _ _ _ _ hfind hpaid
      · simp only [refund_order, hut]
        exact forall₂_statusStep_refl _

/-- Witness for C9: a refund of a concrete paid order steps it to
`"Refunded"` pointwise, and a registration touches no orders. -/
theorem order_status_moves_forward_witness :
    List.Forall₂ statusStep
      [{ id := 0, user := some "b@x.com", product_id := 0,
         product_name := "Rice", quantity := 1, amount := 10000,
         payment_method := "UPI", delivery_address := "addr",
         pincode := "110001", status := "paid",
         delivery_status := "Processing", shipment_id := none,
         razorpay_payment_id := some "pay_1", refund_id := none }]
      ((refund_order
          ⟨[], [],
            [{ id := 0, user := some "b@x.com", product_id := 0,
               product_name := "Rice", quantity := 1, amount := 10000,
               payment_method := "UPI", delivery_address := "addr",
               pincode := "110001", status := "paid",
               delivery_status := "Processing", shipment_id := none,
               razorpay_payment_id := some "pay_1", refund_id := none }]⟩
          ⟨some "admin@x.com", "admin"⟩ (some 0) true (.ok (some "rfnd_1"))).db).orders :=
  order_status_moves_forward.2.2.2.2
    ⟨[], [],
      [{ id := 0, user := some "b@x.com", product_id := 0,
         product_name := "Rice", quantity := 1, amount := 10000,
         payment_method := "UPI", delivery_address := "addr",
         pincode := "110001", status := "paid",
         delivery_status := "Processing", shipment_id := none,
         razorpay_payment_id := some "pay_1", refund_id := none }]⟩
    ⟨some "admin@x.com", "admin"⟩ (some 0) true (.ok (some "rfnd_1"))
    (by simp)

end KropKart
